import Mathlib

/-!
Shallow embedding of the MIRTK Viewer rendering core (`src/RView.cc`) and
proofs about its per-pixel compositor, update/dirty-flag cycle, voxel-contour
input guards, ROI corner updates, display-axis orientation resolution, and
the flat key-value configuration reader/writer.

Machine doubles are modelled by `ℚ`; every arithmetic step performed by the
code on the inputs considered here is exact in binary floating point
(integer values, halves, and quarters well inside the 53-bit mantissa), so
the rational model is faithful.  C's `int(...)` cast truncates toward zero
and C's `round` rounds half away from zero; both are modelled explicitly.
-/

namespace RViewModel

/-- C double-to-int conversion: truncation toward zero. -/
def ctrunc (q : ℚ) : ℤ :=
  if 0 ≤ q then ⌊q⌋ else ⌈q⌉

/-- C `round`: round to nearest, halves away from zero. -/
def cround (q : ℚ) : ℤ :=
  if 0 ≤ q then ⌊q + 1/2⌋ else -⌊-q + 1/2⌋

theorem ctrunc_intCast (n : ℤ) : ctrunc (n : ℚ) = n := by
  unfold ctrunc
  split <;> simp

theorem cround_intCast (n : ℤ) : cround (n : ℚ) = n := by
  have h12 : ⌊(1/2 : ℚ)⌋ = 0 := by norm_num
  unfold cround
  by_cases h : (0 : ℚ) ≤ (n : ℚ)
  · rw [if_pos h, Int.floor_int_add, h12, add_zero]
  · rw [if_neg h, show -(n : ℚ) = ((-n : ℤ) : ℚ) by push_cast; ring,
        Int.floor_int_add, h12, add_zero, neg_neg]

/-- An RGBA color as stored in the per-viewport drawable (`Color` struct;
its `r`, `g`, `b` channels are the written byte values, `a` the alpha used
by the A-over-B / B-over-A blends). -/
structure Color where
  r : ℤ
  g : ℤ
  b : ℤ
  a : ℚ
deriving DecidableEq, Repr

/-- The RGB part of a drawable pixel — the data handed to the rendering
sink (spec §6: "one fixed-size RGB pixel buffer per viewport"). -/
def Color.rgb (c : Color) : ℤ × ℤ × ℤ := (c.r, c.g, c.b)

/-- Modelled from the spec: the header defining `Color` (its default
constructor) is not under `src/`; the spec calls `Color()` "a fixed
'empty' color", so it is modelled as an arbitrary fixed constant. -/
def emptyColor : Color := ⟨0, 0, 0, 0⟩

/-- The view modes dispatched on by `RView::Update` (RView.cc:279-412). -/
inductive ViewMode where
  | viewA
  | viewB
  | viewVShutter
  | viewHShutter
  | viewSubtraction
  | viewCheckerboard
  | viewAoverB
  | viewBoverA
deriving DecidableEq, Repr

/-- One pixel of the base compositing pass of `RView::Update`
(RView.cc:279-412).  `lut1`/`lut2` are the (possibly viewport-swapped)
target/source lookup tables, `t`/`s` the resampled target/source raster
samples at the pixel, `(i,j)` the pixel position in a `w × h` viewport,
`prev` the drawable pixel being overwritten.  The checkerboard and
over-blends write only the `r`,`g`,`b` members of the drawable, so the
drawable's previous alpha survives there. -/
def basePixel (mode : ViewMode) (mix : ℚ) (w h : ℕ) (i j : ℕ)
    (lut1 lut2 subLut : ℤ → Color) (t s : ℤ) (prev : Color) : Color :=
  match mode with
  | .viewA => lut1 t
  | .viewB => lut2 s
  | .viewVShutter => if (i : ℚ) < mix * w then lut1 t else lut2 s
  | .viewHShutter => if (j : ℚ) < mix * h then lut1 t else lut2 s
  | .viewSubtraction =>
      if 0 ≤ t ∧ 0 ≤ s then subLut (t - s) else emptyColor
  | .viewCheckerboard =>
      { r := ctrunc (mix * (lut1 t).r + (1 - mix) * (lut2 s).r)
        g := ctrunc (mix * (lut1 t).g + (1 - mix) * (lut2 s).g)
        b := ctrunc (mix * (lut1 t).b + (1 - mix) * (lut2 s).b)
        a := prev.a }
  | .viewAoverB =>
      { r := ctrunc ((lut1 t).a * (lut1 t).r + (1 - (lut1 t).a) * (lut2 s).r)
        g := ctrunc ((lut1 t).a * (lut1 t).g + (1 - (lut1 t).a) * (lut2 s).g)
        b := ctrunc ((lut1 t).a * (lut1 t).b + (1 - (lut1 t).a) * (lut2 s).b)
        a := prev.a }
  | .viewBoverA =>
      { r := ctrunc ((1 - (lut2 s).a) * (lut1 t).r + (lut2 s).a * (lut2 s).r)
        g := ctrunc ((1 - (lut2 s).a) * (lut1 t).g + (lut2 s).a * (lut2 s).g)
        b := ctrunc ((1 - (lut2 s).a) * (lut1 t).b + (lut2 s).a * (lut2 s).b)
        a := prev.a }

/-- The segmentation overlay pass of `RView::Update` (RView.cc:414-432):
when enabled and the resampled label `seg` is ≥ 0 and its segment-table
entry is visible, blend the entry color over the base color with the
entry's opacity; `entry lbl = (visible, opacity, color)`. -/
def segPixel (enabled : Bool) (entry : ℤ → Bool × ℚ × Color)
    (seg : ℤ) (c : Color) : Color :=
  if enabled ∧ 0 ≤ seg ∧ (entry seg).1 then
    let blendA := (entry seg).2.1
    let col := (entry seg).2.2
    { r := ctrunc ((1 - blendA) * c.r + blendA * col.r)
      g := ctrunc ((1 - blendA) * c.g + blendA * col.g)
      b := ctrunc ((1 - blendA) * c.b + blendA * col.b)
      a := c.a }
  else c

/-- The selection-highlight pass of `RView::Update` (RView.cc:434-449):
when the voxel contour is non-empty and the resampled selection sample is
positive, halve the pixel toward yellow:
`r' = int(0.5·r + 0.5·255)`, `g' = int(0.5·g + 0.5·255)`, `b' = int(0.5·b)`. -/
def selPixel (contourSize : ℕ) (sel : ℤ) (c : Color) : Color :=
  if 0 < contourSize ∧ 0 < sel then
    { r := ctrunc (1/2 * c.r + 1/2 * 255)
      g := ctrunc (1/2 * c.g + 1/2 * 255)
      b := ctrunc (1/2 * c.b)
      a := c.a }
  else c

/-- One full pixel of `RView::Update`'s compositing (base pass, then
segmentation overlay, then selection highlight). -/
def updatePixel (mode : ViewMode) (mix : ℚ) (w h : ℕ) (i j : ℕ)
    (lut1 lut2 subLut : ℤ → Color) (t s : ℤ) (prev : Color)
    (segEnabled : Bool) (entry : ℤ → Bool × ℚ × Color) (seg : ℤ)
    (contourSize : ℕ) (sel : ℤ) : Color :=
  selPixel contourSize sel
    (segPixel segEnabled entry seg
      (basePixel mode mix w h i j lut1 lut2 subLut t s prev))

end RViewModel

namespace RViewModel

/-- C2: in Subtraction view mode the composited color is
`subtractionLUT(target - source)` when both samples are ≥ 0 and the fixed
empty color otherwise; in particular `t = 5, s = 3` yields `subLut 2` and
`s = -1` yields the empty color regardless of `t`. -/
theorem subtraction_pixel_spec (mix : ℚ) (w h i j : ℕ)
    (lut1 lut2 subLut : ℤ → Color) (t s : ℤ) (prev : Color) :
    (0 ≤ t → 0 ≤ s →
      basePixel .viewSubtraction mix w h i j lut1 lut2 subLut t s prev
        = subLut (t - s)) ∧
    (s < 0 →
      basePixel .viewSubtraction mix w h i j lut1 lut2 subLut t s prev
        = emptyColor) ∧
    (t < 0 →
      basePixel .viewSubtraction mix w h i j lut1 lut2 subLut t s prev
        = emptyColor) ∧
    basePixel .viewSubtraction mix w h i j lut1 lut2 subLut 5 3 prev
        = subLut 2 ∧
    basePixel .viewSubtraction mix w h i j lut1 lut2 subLut t (-1) prev
        = emptyColor := by
  refine ⟨fun ht hs => ?_, fun hs => ?_, fun ht => ?_, ?_, ?_⟩
  · simp only [basePixel, if_pos (show 0 ≤ t ∧ 0 ≤ s from ⟨ht, hs⟩)]
  · simp only [basePixel]
    rw [if_neg]
    rintro ⟨-, hs'⟩
    exact absurd hs' (not_le.mpr hs)
  · simp only [basePixel]
    rw [if_neg]
    rintro ⟨ht', -⟩
    exact absurd ht' (not_le.mpr ht)
  · simp only [basePixel]
    norm_num
  · simp only [basePixel]
    norm_num

/-- Witness for `subtraction_pixel_spec` at concrete inputs. -/
theorem subtraction_pixel_spec_witness :
    basePixel .viewSubtraction 0 1 1 0 0 (fun _ => emptyColor)
        (fun _ => emptyColor) (fun d => ⟨d, d, d, 1⟩) 5 3 emptyColor
      = ⟨2, 2, 2, 1⟩ := by
  have h := (subtraction_pixel_spec 0 1 1 0 0 (fun _ => emptyColor)
    (fun _ => emptyColor) (fun d => ⟨d, d, d, 1⟩) 5 3 emptyColor).1
    (by norm_num) (by norm_num)
  rw [h]
  norm_num

/-- C4: checkerboard compositing with `mix = 1.0` produces the same RGB
output as Target-only (`View_A`) at every pixel, and with `mix = 0.0` the
same RGB output as Source-only (`View_B`), for all rasters and lookup
tables.  (RGB is what reaches the rendering sink; the checkerboard branch
writes only the `r`,`g`,`b` members of the drawable.) -/
theorem checkerboard_extremes (w h i j : ℕ)
    (lut1 lut2 subLut : ℤ → Color) (t s : ℤ) (prev : Color) :
    (basePixel .viewCheckerboard 1 w h i j lut1 lut2 subLut t s prev).rgb
      = (basePixel .viewA 1 w h i j lut1 lut2 subLut t s prev).rgb ∧
    (basePixel .viewCheckerboard 0 w h i j lut1 lut2 subLut t s prev).rgb
      = (basePixel .viewB 0 w h i j lut1 lut2 subLut t s prev).rgb := by
  have e1 : ∀ x y : ℤ, ctrunc ((1 : ℚ) * x + (1 - 1) * y) = x := by
    intro x y
    rw [show ((1 : ℚ) * x + (1 - 1) * y) = ((x : ℤ) : ℚ) by ring]
    exact ctrunc_intCast x
  have e0 : ∀ x y : ℤ, ctrunc ((0 : ℚ) * x + (1 - 0) * y) = y := by
    intro x y
    rw [show ((0 : ℚ) * x + (1 - 0) * y) = ((y : ℤ) : ℚ) by ring]
    exact ctrunc_intCast y
  constructor <;> simp only [basePixel, Color.rgb, e1, e0]


/-- C3 counterexample: the selection highlight does NOT override the
previously blended color with a constant — at two pixels whose composited
colors differ (black vs. red) the final highlighted colors differ. -/
theorem selection_highlight_not_constant :
    selPixel 1 1 ⟨0, 0, 0, 1⟩ ≠ selPixel 1 1 ⟨255, 0, 0, 1⟩ := by
  have h1 : (selPixel 1 1 ⟨0, 0, 0, 1⟩).r = 127 := by
    norm_num [selPixel, ctrunc]
  have h2 : (selPixel 1 1 ⟨255, 0, 0, 1⟩).r = 255 := by
    norm_num [selPixel, ctrunc]
  intro h
  rw [h, h2] at h1
  norm_num at h1

/-- C3 (amended): when the voxel contour is non-empty, every pixel whose
resampled selection value is positive receives, after base compositing and
segmentation overlay, a fixed 50% tint toward yellow of the previously
blended color (`r' = int(r/2 + 127.5)`, `g' = int(g/2 + 127.5)`,
`b' = int(b/2)`) — a blend with, not a replacement of, the earlier color;
pixels with non-positive selection value keep the blended color. -/
theorem selection_highlight_spec (mode : ViewMode) (mix : ℚ) (w h i j : ℕ)
    (lut1 lut2 subLut : ℤ → Color) (t s : ℤ) (prev : Color)
    (segEnabled : Bool) (entry : ℤ → Bool × ℚ × Color) (seg : ℤ)
    (contourSize : ℕ) (sel : ℤ) (hc : 0 < contourSize) :
    (0 < sel →
      updatePixel mode mix w h i j lut1 lut2 subLut t s prev
          segEnabled entry seg contourSize sel
        = (let c := segPixel segEnabled entry seg
              (basePixel mode mix w h i j lut1 lut2 subLut t s prev)
           ⟨ctrunc (1/2 * c.r + 1/2 * 255), ctrunc (1/2 * c.g + 1/2 * 255),
            ctrunc (1/2 * c.b), c.a⟩)) ∧
    (sel ≤ 0 →
      updatePixel mode mix w h i j lut1 lut2 subLut t s prev
          segEnabled entry seg contourSize sel
        = segPixel segEnabled entry seg
            (basePixel mode mix w h i j lut1 lut2 subLut t s prev)) := by
  constructor
  · intro hsel
    simp only [updatePixel, selPixel, if_pos (show _ ∧ _ from ⟨hc, hsel⟩)]
  · intro hsel
    simp only [updatePixel, selPixel]
    rw [if_neg]
    rintro ⟨-, hsel'⟩
    exact absurd hsel (not_le.mpr hsel')

/-- Witness for `selection_highlight_spec` at concrete inputs. -/
theorem selection_highlight_spec_witness :
    updatePixel .viewA 0 1 1 0 0 (fun _ => ⟨255, 0, 0, 1⟩)
        (fun _ => emptyColor) (fun _ => emptyColor) 0 0 emptyColor
        false (fun _ => (false, 0, emptyColor)) 0 1 1
      = ⟨255, 127, 0, 1⟩ := by
  have h := (selection_highlight_spec .viewA 0 1 1 0 0
    (fun _ => ⟨255, 0, 0, 1⟩) (fun _ => emptyColor) (fun _ => emptyColor)
    0 0 emptyColor false (fun _ => (false, 0, emptyColor)) 0 1 1
    (by norm_num)).1 (by norm_num)
  rw [h]
  norm_num [segPixel, basePixel, ctrunc]

/-- The four per-role dirty flags and per-role input emptiness, together
with the number of viewers, as consumed by `RView::Update`
(RView.cc:242-263). -/
structure UpdateState where
  targetDirty : Bool
  sourceDirty : Bool
  segDirty : Bool
  selDirty : Bool
  targetEmpty : Bool
  sourceEmpty : Bool
  segEmpty : Bool
  rasterEmpty : Bool
  nViewers : ℕ
deriving DecidableEq, Repr

/-- The four resampling roles. -/
inductive Role where
  | target
  | source
  | seg
  | sel
deriving DecidableEq, Repr

/-- The dirty flag `RView::Update` consults for a role
(`_targetUpdate`, `_sourceUpdate`, `_segmentationUpdate`, `_selectionUpdate`). -/
def UpdateState.dirty (st : UpdateState) : Role → Bool
  | .target => st.targetDirty
  | .source => st.sourceDirty
  | .seg => st.segDirty
  | .sel => st.selDirty

/-- Emptiness of the role's input volume/raster (`_targetImage->IsEmpty()`
etc.; for the selection role, `_voxelContour._raster->IsEmpty()`). -/
def UpdateState.empty (st : UpdateState) : Role → Bool
  | .target => st.targetEmpty
  | .source => st.sourceEmpty
  | .seg => st.segEmpty
  | .sel => st.rasterEmpty

/-- The resampling filter runs performed by the first loop of
`RView::Update` (RView.cc:242-257): for each viewport `l` and each role,
`_<role>TransformFilter[l]->Run()` executes when the role's dirty flag is
set and its input is non-empty. -/
def updateRuns (st : UpdateState) : List (ℕ × Role) :=
  (List.range st.nViewers).flatMap fun l =>
    (if st.targetDirty && !st.targetEmpty then [(l, Role.target)] else []) ++
    (if st.sourceDirty && !st.sourceEmpty then [(l, Role.source)] else []) ++
    (if st.segDirty && !st.segEmpty then [(l, Role.seg)] else []) ++
    (if st.selDirty && !st.rasterEmpty then [(l, Role.sel)] else [])

/-- Model of `RView::Update`: performs the runs above, then clears all four dirty
flags (RView.cc:259-263). -/
def update (st : UpdateState) : UpdateState × List (ℕ × Role) :=
  ({ st with targetDirty := false, sourceDirty := false,
             segDirty := false, selDirty := false }, updateRuns st)

/-- C5: `RView::Update` runs the resampling filter for a role in viewport
`l` iff `l` is a valid viewport, the role's dirty flag is set and the
role's input is non-empty; on return all four dirty flags are false, and a
second `Update` with no intervening mutation performs no resampling. -/
theorem update_dirty_contract (st : UpdateState) :
    (∀ l r, (l, r) ∈ (update st).2 ↔
        l < st.nViewers ∧ st.dirty r = true ∧ st.empty r = false) ∧
    (∀ r, (update st).1.dirty r = false) ∧
    (update (update st).1).2 = [] := by
  refine ⟨fun l r => ?_, fun r => ?_, ?_⟩
  · simp only [update, updateRuns, List.mem_flatMap, List.mem_range,
      List.mem_append]
    constructor
    · rintro ⟨l', hl', hmem⟩
      cases r <;>
        [ (refine ⟨?_, ?_, ?_⟩) ; (refine ⟨?_, ?_, ?_⟩) ;
          (refine ⟨?_, ?_, ?_⟩) ; (refine ⟨?_, ?_, ?_⟩) ] <;>
        · rcases hmem with ((h | h) | h) | h <;>
            split at h <;>
            simp_all [UpdateState.dirty, UpdateState.empty]
    · rintro ⟨hl, hd, he⟩
      refine ⟨l, hl, ?_⟩
      cases r <;>
        simp_all [UpdateState.dirty, UpdateState.empty]
  · cases r <;> simp [update, UpdateState.dirty]
  · simp [update, updateRuns]

/-- A viewport rectangle in normalized screen coordinates, as returned by
`Viewer::GetViewport(x1, y1, x2, y2)`. -/
structure Rect where
  xmin : ℚ
  ymin : ℚ
  xmax : ℚ
  ymax : ℚ
deriving DecidableEq, Repr

/-- The point-in-viewport test used by the contour entry points:
`(x >= x1) && (x < x2) && (y >= y1) && (y < y2)`. -/
def Rect.inside (r : Rect) (x y : ℚ) : Prop :=
  r.xmin ≤ x ∧ x < r.xmax ∧ r.ymin ≤ y ∧ y < r.ymax

instance (r : Rect) (x y : ℚ) : Decidable (r.inside x y) := by
  unfold Rect.inside
  infer_instance

/-- The `RView` state consulted by the contour entry points `AddContour`,
`FillArea` and `RegionGrowContour` (RView.cc:729-864).  `σ` abstracts the
`VoxelContour` internals and the selection raster, whose implementation is
not under `src/`. -/
structure ContourState (σ : Type) where
  screenX : ℚ
  screenY : ℚ
  nViewers : ℕ
  viewport : ℤ → Rect
  viewerMode : ℤ → ℕ
  contourViewer : ℤ
  contourViewerMode : ℕ
  contourSize : ℕ
  contour : σ
  selUpdate : Bool

/-- The owning-viewer selection loop shared by the three contour entry
points (RView.cc:741-747): scan all viewers and record the last viewer
whose viewport contains the normalized click position. -/
def chooseViewer {σ : Type} (st : ContourState σ) (x y : ℚ) : ContourState σ :=
  (List.range st.nViewers).foldl
    (fun s k =>
      if (s.viewport (k : ℤ)).inside x y then
        { s with contourViewer := (k : ℤ), contourViewerMode := s.viewerMode (k : ℤ) }
      else s)
    st

/-- The shared skeleton of `RView::AddContour` (RView.cc:729-785),
`RView::FillArea` (RView.cc:787-825) and `RView::RegionGrowContour`
(RView.cc:827-864): convert the pixel click `(i,j)` to normalized
bottom-left coordinates; if no contour is open, pick the owning viewer and
run the interaction body; if a contour is open and the position lies
outside the owning viewer's viewport, return with no change at all;
otherwise run the body.  `body` abstracts everything after the guard —
viewport-local coordinate conversion, `VoxelContour`
initialisation/mutation (code not under `src/`) and the final
`_selectionUpdate = true`. -/
def contourInteraction {σ : Type}
    (body : ContourState σ → ℚ → ℚ → ContourState σ)
    (st : ContourState σ) (i j : ℤ) : ContourState σ :=
  let x : ℚ := (i : ℚ) / st.screenX
  let y : ℚ := (st.screenY - (j : ℚ)) / st.screenY
  if st.contourSize = 0 then
    body (chooseViewer st x y) x y
  else if ¬ (st.viewport st.contourViewer).inside x y then
    st
  else
    body st x y

/-- Function `RView::AddContour` with its post-guard body abstracted. -/
def addContour {σ : Type} (body : ContourState σ → ℚ → ℚ → ContourState σ) :
    ContourState σ → ℤ → ℤ → ContourState σ :=
  contourInteraction body

/-- Function `RView::FillArea` with its post-guard body abstracted. -/
def fillArea {σ : Type} (body : ContourState σ → ℚ → ℚ → ContourState σ) :
    ContourState σ → ℤ → ℤ → ContourState σ :=
  contourInteraction body

/-- Function `RView::RegionGrowContour` with its post-guard body abstracted. -/
def regionGrowContour {σ : Type} (body : ContourState σ → ℚ → ℚ → ContourState σ) :
    ContourState σ → ℤ → ℤ → ContourState σ :=
  contourInteraction body

/-- C6: once a contour is open (its point count is positive), a call to
`AddContour`, `FillArea` or `RegionGrowContour` whose normalized click
position lies outside the owning viewport's rectangle returns the state
completely unchanged — no contour, raster, or dirty-flag modification,
whatever the interaction bodies would do. -/
theorem contour_outside_noop {σ : Type}
    (bodyA bodyF bodyG : ContourState σ → ℚ → ℚ → ContourState σ)
    (st : ContourState σ) (i j : ℤ)
    (hsize : 0 < st.contourSize)
    (hout : ¬ (st.viewport st.contourViewer).inside
        ((i : ℚ) / st.screenX) ((st.screenY - (j : ℚ)) / st.screenY)) :
    addContour bodyA st i j = st ∧
    fillArea bodyF st i j = st ∧
    regionGrowContour bodyG st i j = st := by
  have h0 : ¬ st.contourSize = 0 := Nat.pos_iff_ne_zero.mp hsize
  refine ⟨?_, ?_, ?_⟩ <;>
    simp only [addContour, fillArea, regionGrowContour, contourInteraction,
      if_neg h0, if_pos hout]

/-- Witness for `contour_outside_noop`: a single 50%-width viewport, an
open contour, and a click in the right half of the screen. -/
theorem contour_outside_noop_witness :
    addContour (σ := Unit) (fun s _ _ => { s with selUpdate := true })
      { screenX := 100, screenY := 100, nViewers := 1,
        viewport := fun _ => ⟨0, 0, 1/2, 1⟩, viewerMode := fun _ => 0,
        contourViewer := 0, contourViewerMode := 0, contourSize := 3,
        contour := (), selUpdate := false }
      90 10
    = { screenX := 100, screenY := 100, nViewers := 1,
        viewport := fun _ => ⟨0, 0, 1/2, 1⟩, viewerMode := fun _ => 0,
        contourViewer := 0, contourViewerMode := 0, contourSize := 3,
        contour := (), selUpdate := false } := by
  exact (contour_outside_noop _ (fun s _ _ => s) (fun s _ _ => s) _ 90 10
    (by norm_num)
    (by norm_num [Rect.inside])).1

/-- The per-axis clamping core of `RView::UpdateROI2` (RView.cc:709-720),
in target voxel coordinates: `roi1` is corner 1's coordinate on the axis,
`cand` the clicked candidate coordinate for corner 2, `dim` the target
volume's dimension on the axis.
`if (round(roi2) >= dim) roi2 = dim - 1; if (round(roi2) < round(roi1)) roi2 = roi1;` -/
def updateROI2axis (roi1 cand : ℚ) (dim : ℤ) : ℚ :=
  let r := if dim ≤ cround cand then ((dim - 1 : ℤ) : ℚ) else cand
  if cround r < cround roi1 then roi1 else r

/-- The per-axis clamping core of `RView::UpdateROI1` (RView.cc:662-673):
`if (round(roi1) < 0) roi1 = 0; if (round(roi1) > round(roi2)) roi1 = round(roi2);`
(note the forced value is the **rounded** other corner). -/
def updateROI1axis (cand roi2 : ℚ) : ℚ :=
  let r := if cround cand < 0 then 0 else cand
  if cround roi2 < cround r then ((cround roi2 : ℤ) : ℚ) else r

/-- C7 counterexample: after `UpdateROI2` the corners need NOT satisfy
`corner1 ≤ corner2` in (continuous) target voxel coordinates: with corner 1
at voxel coordinate 1.4 and a click placing corner 2 at 1.2 (both rounding
to voxel 1, dimension 10), the stored corner 2 is 1.2 < 1.4. -/
theorem roi2_order_counterexample :
    updateROI2axis (7/5) (6/5) 10 = 6/5 ∧ ¬ ((7/5 : ℚ) ≤ 6/5) := by
  constructor
  · norm_num [updateROI2axis, cround]
  · norm_num

/-- C7 (amended): the corner updates keep the ROI ordered in **rounded**
target voxel coordinates.  For `UpdateROI2` (corner 1 within bounds):
`round(corner1) ≤ round(corner2') ≤ dim - 1`, and a candidate whose
rounded voxel lies below `round(corner1)` forces `corner2' = corner1`
exactly.  For `UpdateROI1`: `round(corner1') ≤ round(corner2)`, corner 1
stays at voxel ≥ 0 when corner 2 is, and a candidate whose rounded voxel
lies above `round(corner2)` forces `corner1' = round(corner2)` (the
rounded value, not corner 2 itself). -/
theorem roi_update_ordered (roi1 cand cand1 roi2 : ℚ) (dim : ℤ)
    (hlo : 0 ≤ cround roi1) (hhi : cround roi1 ≤ dim - 1)
    (h2 : 0 ≤ cround roi2) :
    cround roi1 ≤ cround (updateROI2axis roi1 cand dim) ∧
    cround (updateROI2axis roi1 cand dim) ≤ dim - 1 ∧
    (cround cand < cround roi1 → updateROI2axis roi1 cand dim = roi1) ∧
    cround (updateROI1axis cand1 roi2) ≤ cround roi2 ∧
    0 ≤ cround (updateROI1axis cand1 roi2) ∧
    (0 ≤ cround cand1 → cround roi2 < cround cand1 →
      updateROI1axis cand1 roi2 = ((cround roi2 : ℤ) : ℚ)) := by
  have hc0 : cround (0 : ℚ) = 0 := by
    have := cround_intCast 0
    simpa using this
  have hd := cround_intCast (dim - 1)
  have hr2 := cround_intCast (cround roi2)
  refine ⟨?_, ?_, ?_, ?_, ?_, ?_⟩
  · unfold updateROI2axis
    by_cases hA : dim ≤ cround cand <;> simp only [hA, if_true, if_false] <;>
      split <;> simp_all <;> omega
  · unfold updateROI2axis
    by_cases hA : dim ≤ cround cand <;> simp only [hA, if_true, if_false] <;>
      split <;> simp_all [cround_intCast] <;> omega
  · intro hforce
    unfold updateROI2axis
    have hA : ¬ dim ≤ cround cand := by omega
    simp only [hA, if_false]
    simp only [if_pos hforce]
  · unfold updateROI1axis
    by_cases hA : cround cand1 < 0 <;> simp only [hA, if_true, if_false] <;>
      split <;> simp_all [cround_intCast, hc0] <;> omega
  · unfold updateROI1axis
    by_cases hA : cround cand1 < 0 <;> simp only [hA, if_true, if_false] <;>
      split <;> simp_all [cround_intCast, hc0] <;> omega
  · intro hpos hforce
    unfold updateROI1axis
    have hA : ¬ cround cand1 < 0 := by omega
    simp only [hA, if_false]
    simp only [if_pos hforce]

/-- Witness for `roi_update_ordered`: corner 1 at voxel coordinate 1.4,
click mapping corner 2 to 0.1 (rounded voxel 0 < 1), dimension 10 — the
update forces corner 2 to equal corner 1 exactly. -/
theorem roi_update_ordered_witness :
    updateROI2axis (7/5) (1/10) 10 = 7/5 := by
  exact (roi_update_ordered (7/5) (1/10) 0 0 10
    (by norm_num [cround]) (by norm_num [cround])
    (by norm_num [cround, Int.floor_intCast])).2.2.1 (by norm_num [cround])

/-- The per-axis patient orientation codes of `mirtk::BaseImage`
dispatched on by `RView::Reset`; `unresolved` stands for any code outside
the six handled ones (the switch's `default`). -/
inductive OrientCode where
  | l2r
  | r2l
  | p2a
  | a2p
  | i2s
  | s2i
  | unresolved
deriving DecidableEq, Repr

/-- The display conventions (`_DisplayMode`). -/
inductive DispMode where
  | native
  | neurological
  | radiological
deriving DecidableEq, Repr

/-- A direction vector (one of the target volume's physical axis
direction vectors, or a display axis slot). -/
structure Vec3 where
  x : ℚ
  y : ℚ
  z : ℚ
deriving DecidableEq, Repr

/-- Componentwise negated vector. -/
def Vec3.neg (v : Vec3) : Vec3 := ⟨-v.x, -v.y, -v.z⟩

/-- The display axis slots `_xaxis`, `_yaxis`, `_zaxis`. -/
structure DisplayAxes where
  xaxis : Vec3
  yaxis : Vec3
  zaxis : Vec3
deriving DecidableEq, Repr

/-- One `switch` of the Neurological branch of `RView::Reset`
(RView.cc:2076-2110; the same switch is repeated for the j and k axes with
the respective physical vector): assign the physical direction vector `v`
(possibly negated) to the display slot selected by the axis's orientation
code; an unresolvable code is reported (`Bool` result) and assigns no
slot. -/
def axisStepNeuro (s : DisplayAxes) (code : OrientCode) (v : Vec3) :
    DisplayAxes × Bool :=
  match code with
  | .l2r => ({ s with xaxis := v.neg }, false)
  | .r2l => ({ s with xaxis := v }, false)
  | .p2a => ({ s with yaxis := v }, false)
  | .a2p => ({ s with yaxis := v.neg }, false)
  | .i2s => ({ s with zaxis := v }, false)
  | .s2i => ({ s with zaxis := v.neg }, false)
  | .unresolved => (s, true)

/-- One `switch` of the Radiological (non-Native, non-Neurological) branch
of `RView::Reset` (RView.cc:2182-2216): same slots, opposite signs on the
left-right axis pair. -/
def axisStepRadio (s : DisplayAxes) (code : OrientCode) (v : Vec3) :
    DisplayAxes × Bool :=
  match code with
  | .l2r => ({ s with xaxis := v }, false)
  | .r2l => ({ s with xaxis := v.neg }, false)
  | .p2a => ({ s with yaxis := v }, false)
  | .a2p => ({ s with yaxis := v.neg }, false)
  | .i2s => ({ s with zaxis := v }, false)
  | .s2i => ({ s with zaxis := v.neg }, false)
  | .unresolved => (s, true)

/-- The display-axis part of `RView::Reset` (RView.cc:2064-2288): Native
copies the physical axes; otherwise the three per-axis switches run in
order (i with the first physical vector, then j, then k), in the
Neurological or Radiological variant.  Returns the axes and the per-axis
"Can't work out orientation" report flags. -/
def resetAxes (mode : DispMode) (ic jc kc : OrientCode)
    (vx vy vz : Vec3) (s0 : DisplayAxes) :
    DisplayAxes × (Bool × Bool × Bool) :=
  match mode with
  | .native => (⟨vx, vy, vz⟩, (false, false, false))
  | .neurological =>
      let (s1, r1) := axisStepNeuro s0 ic vx
      let (s2, r2) := axisStepNeuro s1 jc vy
      let (s3, r3) := axisStepNeuro s2 kc vz
      (s3, (r1, r2, r3))
  | .radiological =>
      let (s1, r1) := axisStepRadio s0 ic vx
      let (s2, r2) := axisStepRadio s1 jc vy
      let (s3, r3) := axisStepRadio s2 kc vz
      (s3, (r1, r2, r3))

/-- C8: with `L2R` on the first physical axis (and the other two axes not
mapping to the display x slot), the Neurological convention puts the
negated first physical direction vector on display x while the
Radiological convention puts the unnegated vector there; and an
unresolvable orientation code is reported and leaves every display slot
unchanged. -/
theorem reset_orientation_l2r (jc kc : OrientCode) (vx vy vz : Vec3)
    (s0 : DisplayAxes)
    (hj : jc ≠ .l2r ∧ jc ≠ .r2l) (hk : kc ≠ .l2r ∧ kc ≠ .r2l) :
    (resetAxes .neurological .l2r jc kc vx vy vz s0).1.xaxis = vx.neg ∧
    (resetAxes .radiological .l2r jc kc vx vy vz s0).1.xaxis = vx ∧
    (∀ (s : DisplayAxes) (v : Vec3),
      axisStepNeuro s .unresolved v = (s, true) ∧
      axisStepRadio s .unresolved v = (s, true)) := by
  obtain ⟨hj1, hj2⟩ := hj
  obtain ⟨hk1, hk2⟩ := hk
  refine ⟨?_, ?_, fun s v => ⟨rfl, rfl⟩⟩ <;>
    cases jc <;> cases kc <;>
    first
      | exact absurd rfl hj1
      | exact absurd rfl hj2
      | exact absurd rfl hk1
      | exact absurd rfl hk2
      | rfl

/-- Witness for `reset_orientation_l2r` on a concrete RAS-oriented
volume. -/
theorem reset_orientation_l2r_witness :
    (resetAxes .neurological .l2r .p2a .i2s ⟨1, 0, 0⟩ ⟨0, 1, 0⟩ ⟨0, 0, 1⟩
        ⟨⟨1, 0, 0⟩, ⟨0, 1, 0⟩, ⟨0, 0, 1⟩⟩).1.xaxis = ⟨-1, 0, 0⟩ := by
  have h := (reset_orientation_l2r .p2a .i2s ⟨1, 0, 0⟩ ⟨0, 1, 0⟩ ⟨0, 0, 1⟩
    ⟨⟨1, 0, 0⟩, ⟨0, 1, 0⟩, ⟨0, 0, 1⟩⟩
    (by refine ⟨?_, ?_⟩ <;> intro h <;> cases h)
    (by refine ⟨?_, ?_⟩ <;> intro h <;> cases h)).1
  rw [h]
  norm_num [Vec3.neg]

/-- The layout presets of `_configMode` (enumeration read and written by
`RView::Read`/`RView::Write`). -/
inductive ConfigMode where
  | viewXY
  | viewXZ
  | viewYZ
  | viewXY_XZ_v
  | viewXY_YZ_v
  | viewXZ_YZ_v
  | viewXY_XZ_h
  | viewXY_YZ_h
  | viewXZ_YZ_h
  | viewXY_XZ_YZ
  | viewAB_XY_v
  | viewAB_XZ_v
  | viewAB_YZ_v
  | viewAB_XY_XZ_v
  | viewAB_XY_h
  | viewAB_XZ_h
  | viewAB_YZ_h
  | viewAB_XY_XZ_h
deriving DecidableEq, Repr

/-- The five interpolation modes `RView` reads, writes and reports
(`GetTargetInterpolationMode`, RView.cc:2976-2994). -/
inductive InterpMode where
  | nn
  | linear
  | cspline
  | bspline
  | sinc
deriving DecidableEq, Repr

/-- The five lookup-table color modes handled by the configuration I/O. -/
inductive ColorMode where
  | red
  | green
  | blue
  | luminance
  | rainbow
deriving DecidableEq, Repr

/-- The cursor modes (`_CursorMode`). -/
inductive CursorMode where
  | crossHair
  | cursorX
  | cursorV
  | cursorBar
deriving DecidableEq, Repr

/-- A configuration line's value: `tok` for enumeration tokens compared
with `strcmp`, `int` for integer values, `dec` for decimal values.
`atoi`/`atof` of a `tok` value is 0 — the tokens involved never start
with a digit. -/
inductive CVal where
  | tok (s : String)
  | int (n : ℤ)
  | dec (q : ℚ)
deriving DecidableEq, Repr

/-- C `atoi` on a configuration value. -/
def atoiV : CVal → ℤ
  | .tok _ => 0
  | .int n => n
  | .dec q => ctrunc q

/-- C `atof` on a configuration value. -/
def atofV : CVal → ℚ
  | .tok _ => 0
  | .int n => (n : ℚ)
  | .dec q => q

/-- One `key = value` configuration line. -/
structure CLine where
  key : String
  val : CVal
deriving DecidableEq, Repr

/-- Test whether `p` is a prefix of `l` (character lists). -/
def isPrefixOfL : List Char → List Char → Bool
  | [], _ => true
  | _ :: _, [] => false
  | a :: as, b :: bs => a == b && isPrefixOfL as bs

/-- Test whether `pat` occurs as a contiguous substring of the second list. -/
def containsL (pat : List Char) : List Char → Bool
  | [] => isPrefixOfL pat []
  | b :: bs => isPrefixOfL pat (b :: bs) || containsL pat bs

/-- Model of `strstr(buffer1, pat) != nullptr`: `pat` occurs in the line.  (In the
source, `buffer1` is the whole line; for the configurations modelled here
no value contains a key pattern, so matching against the key field is
equivalent.) -/
def hasKey (ln : CLine) (pat : String) : Bool :=
  containsL pat.toList ln.key.toList

/-- The `configMode` token dispatch of `RView::Read` (RView.cc:958-1014).
Note the last four branches: the `View_AB_*_h` tokens are mapped to the
`_View_AB_*_v` enumerators (RView.cc:1001-1012).  An unrecognized token
leaves the mode unchanged. -/
def parseConfigMode (v : CVal) (dflt : ConfigMode) : ConfigMode :=
  match v with
  | .tok s =>
      if s = "View_XY" then .viewXY
      else if s = "View_XZ" then .viewXZ
      else if s = "View_YZ" then .viewYZ
      else if s = "View_XY_XZ_v" then .viewXY_XZ_v
      else if s = "View_XY_YZ_v" then .viewXY_YZ_v
      else if s = "View_XZ_YZ_v" then .viewXZ_YZ_v
      else if s = "View_XY_XZ_h" then .viewXY_XZ_h
      else if s = "View_XY_YZ_h" then .viewXY_YZ_h
      else if s = "View_XZ_YZ_h" then .viewXZ_YZ_h
      else if s = "View_XY_XZ_YZ" then .viewXY_XZ_YZ
      else if s = "View_AB_XY_v" then .viewAB_XY_v
      else if s = "View_AB_XZ_v" then .viewAB_XZ_v
      else if s = "View_AB_YZ_v" then .viewAB_YZ_v
      else if s = "View_AB_XY_XZ_v" then .viewAB_XY_XZ_v
      else if s = "View_AB_XY_h" then .viewAB_XY_v
      else if s = "View_AB_XZ_h" then .viewAB_XZ_v
      else if s = "View_AB_YZ_h" then .viewAB_YZ_v
      else if s = "View_AB_XY_XZ_h" then .viewAB_XY_XZ_v
      else dflt
  | _ => dflt

/-- The interpolation token dispatch of `RView::Read` (RView.cc:1051-1097);
an unrecognized token on an interpolation line is fatal
(`cerr << "Unknown interpolation"; exit(1)` — modelled as `none`). -/
def parseInterp (v : CVal) : Option InterpMode :=
  match v with
  | .tok s =>
      if s = "mirtk::Interpolation_NN" then some .nn
      else if s = "mirtk::Interpolation_Linear" then some .linear
      else if s = "Interpolation_C1Spline" then some .cspline
      else if s = "mirtk::Interpolation_BSpline" then some .bspline
      else if s = "mirtk::Interpolation_Sinc" then some .sinc
      else none
  | _ => none

/-- The `viewMode` token dispatch of `RView::Read` (RView.cc:1103-1123);
only six tokens are recognized, anything else leaves the mode
unchanged. -/
def parseViewMode (v : CVal) (dflt : ViewMode) : ViewMode :=
  match v with
  | .tok s =>
      if s = "View_A" then .viewA
      else if s = "View_B" then .viewB
      else if s = "View_Checkerboard" then .viewCheckerboard
      else if s = "View_Subtraction" then .viewSubtraction
      else if s = "View_HShutter" then .viewHShutter
      else if s = "View_VShutter" then .viewVShutter
      else dflt
  | _ => dflt

/-- The `CursorMode` token dispatch of `RView::Read` (RView.cc:1146-1162). -/
def parseCursorMode (v : CVal) (dflt : CursorMode) : CursorMode :=
  match v with
  | .tok s =>
      if s = "CrossHair" then .crossHair
      else if s = "CursorX" then .cursorX
      else if s = "CursorV" then .cursorV
      else if s = "CursorBar" then .cursorBar
      else dflt
  | _ => dflt

/-- The lookup-table color-mode token dispatch of `RView::Read`
(RView.cc:1211-1282, identical for the three tables). -/
def parseColorMode (v : CVal) (dflt : ColorMode) : ColorMode :=
  match v with
  | .tok s =>
      if s = "ColorMode_Red" then .red
      else if s = "ColorMode_Green" then .green
      else if s = "ColorMode_Blue" then .blue
      else if s = "ColorMode_Luminance" then .luminance
      else if s = "ColorMode_Rainbow" then .rainbow
      else dflt
  | _ => dflt

/-- The `RView` state read and written by the configuration I/O, restricted
to the fields the `Read`/`Write` pair touches (built without VTK, so the
three `DisplayObject*` lines are absent). -/
structure ConfigState where
  configMode : ConfigMode
  screenX : ℤ
  screenY : ℤ
  originX : ℚ
  originY : ℚ
  originZ : ℚ
  res : ℚ
  targetInterp : InterpMode
  sourceInterp : InterpMode
  viewMode : ViewMode
  viewMix : ℚ
  dispTargetContour : Bool
  dispSourceContour : Bool
  dispCursor : Bool
  cursorMode : CursorMode
  dispDefGrid : Bool
  dispDefPoints : Bool
  dispDefArrows : Bool
  dispLandmarks : Bool
  targetMin : ℤ
  targetMax : ℤ
  targetColorMode : ColorMode
  sourceMin : ℤ
  sourceMax : ℤ
  sourceColorMode : ColorMode
  subMin : ℤ
  subMax : ℤ
  subColorMode : ColorMode
deriving DecidableEq, Repr

/-- The interpolator recreation `RView::Read` performs on EVERY parsed
line (RView.cc:1046-1100): the local `interpolation` defaults to NN; the
target interpolator is deleted and recreated from it after the
`targetInterpolationMode` token check; the source interpolator is deleted
and recreated after the `sourceInterpolationMode` check — from the same
local, which still holds the target line's parsed mode when only the
target check matched. -/
def lineInterp (ln : CLine) : Option (InterpMode × InterpMode) :=
  match (if hasKey ln "targetInterpolationMode" then parseInterp ln.val
         else some .nn) with
  | none => none
  | some ti =>
      match (if hasKey ln "sourceInterpolationMode" then parseInterp ln.val
             else some ti) with
      | none => none
      | some si => some (ti, si)

/-- Processing of one configuration line by the loop body of `RView::Read`
(RView.cc:952-1294).  Key patterns are matched with `strstr`; each match
assigns its field.  The `screenX` handler assigns `_screenY`
(RView.cc:1016-1019), the same field the `screenY` handler assigns, so the
two are folded into one conditional with the later (`screenY`) check
winning when both patterns occur.  `_screenX` is never assigned.
Unrecognized keys and unrecognized tokens (except interpolation tokens,
which are fatal) change nothing. -/
def readLine (s : ConfigState) (ln : CLine) : Option ConfigState :=
  match lineInterp ln with
  | none => none
  | some (ti, si) => some
    { configMode :=
        if hasKey ln "configMode" then parseConfigMode ln.val s.configMode
        else s.configMode
      screenX := s.screenX
      screenY :=
        if hasKey ln "screenY" then atoiV ln.val
        else if hasKey ln "screenX" then atoiV ln.val
        else s.screenY
      originX := if hasKey ln "origin_x" then atofV ln.val else s.originX
      originY := if hasKey ln "origin_y" then atofV ln.val else s.originY
      originZ := if hasKey ln "origin_z" then atofV ln.val else s.originZ
      res := if hasKey ln "resolution" then atofV ln.val else s.res
      targetInterp := ti
      sourceInterp := si
      viewMode :=
        if hasKey ln "viewMode" then parseViewMode ln.val s.viewMode
        else s.viewMode
      viewMix := if hasKey ln "viewMix" then atofV ln.val else s.viewMix
      dispTargetContour :=
        if hasKey ln "DisplayTargetContour" then atoiV ln.val != 0
        else s.dispTargetContour
      dispSourceContour :=
        if hasKey ln "DisplaySourceContour" then atoiV ln.val != 0
        else s.dispSourceContour
      dispCursor :=
        if hasKey ln "DisplayCursor" then atoiV ln.val != 0
        else s.dispCursor
      cursorMode :=
        if hasKey ln "CursorMode" then parseCursorMode ln.val s.cursorMode
        else s.cursorMode
      dispDefGrid :=
        if hasKey ln "DisplayDeformationGrid" then atoiV ln.val != 0
        else s.dispDefGrid
      dispDefPoints :=
        if hasKey ln "DisplayDeformationPoints" then atoiV ln.val != 0
        else s.dispDefPoints
      dispDefArrows :=
        if hasKey ln "DisplayDeformationArrows" then atoiV ln.val != 0
        else s.dispDefArrows
      dispLandmarks :=
        if hasKey ln "DisplayLandmarks" then atoiV ln.val != 0
        else s.dispLandmarks
      targetMin :=
        if hasKey ln "targetLookupTable_min" then atoiV ln.val
        else s.targetMin
      targetMax :=
        if hasKey ln "targetLookupTable_max" then atoiV ln.val
        else s.targetMax
      targetColorMode :=
        if hasKey ln "targetLookupTable_mode" then
          parseColorMode ln.val s.targetColorMode
        else s.targetColorMode
      sourceMin :=
        if hasKey ln "sourceLookupTable_min" then atoiV ln.val
        else s.sourceMin
      sourceMax :=
        if hasKey ln "sourceLookupTable_max" then atoiV ln.val
        else s.sourceMax
      sourceColorMode :=
        if hasKey ln "sourceLookupTable_mode" then
          parseColorMode ln.val s.sourceColorMode
        else s.sourceColorMode
      subMin :=
        if hasKey ln "subtractionLookupTable_min" then atoiV ln.val
        else s.subMin
      subMax :=
        if hasKey ln "subtractionLookupTable_max" then atoiV ln.val
        else s.subMax
      subColorMode :=
        if hasKey ln "subtractionLookupTable_mode" then
          parseColorMode ln.val s.subColorMode
        else s.subColorMode }

/-- Function `RView::Read` over a parsed line list (the final
`Configure(_configMode)` call, RView.cc:1297-1352, rebuilds viewers and
dirty flags but touches none of the fields modelled here). -/
def readConfig (s : ConfigState) : List CLine → Option ConfigState
  | [] => some s
  | ln :: rest =>
      match readLine s ln with
      | none => none
      | some s' => readConfig s' rest

/-- The `configMode` token written by `RView::Write` (RView.cc:1369-1424);
all 18 layouts are written under their own name. -/
def configModeTok : ConfigMode → String
  | .viewXY => "View_XY"
  | .viewXZ => "View_XZ"
  | .viewYZ => "View_YZ"
  | .viewXY_XZ_v => "View_XY_XZ_v"
  | .viewXY_YZ_v => "View_XY_YZ_v"
  | .viewXZ_YZ_v => "View_XZ_YZ_v"
  | .viewXY_XZ_h => "View_XY_XZ_h"
  | .viewXY_YZ_h => "View_XY_YZ_h"
  | .viewXZ_YZ_h => "View_XZ_YZ_h"
  | .viewXY_XZ_YZ => "View_XY_XZ_YZ"
  | .viewAB_XY_v => "View_AB_XY_v"
  | .viewAB_XZ_v => "View_AB_XZ_v"
  | .viewAB_YZ_v => "View_AB_YZ_v"
  | .viewAB_XY_XZ_v => "View_AB_XY_XZ_v"
  | .viewAB_XY_h => "View_AB_XY_h"
  | .viewAB_XZ_h => "View_AB_XZ_h"
  | .viewAB_YZ_h => "View_AB_YZ_h"
  | .viewAB_XY_XZ_h => "View_AB_XY_XZ_h"

/-- The interpolation token written by `RView::Write`
(RView.cc:1439-1477). -/
def interpTok : InterpMode → String
  | .nn => "mirtk::Interpolation_NN"
  | .linear => "mirtk::Interpolation_Linear"
  | .cspline => "Interpolation_C1Spline"
  | .bspline => "mirtk::Interpolation_BSpline"
  | .sinc => "mirtk::Interpolation_Sinc"

/-- The `viewMode` line written by `RView::Write` (RView.cc:1483-1504):
only six modes have a case; `View_AoverB` and `View_BoverA` hit the
`default` and write NO line. -/
def viewModeLines (m : ViewMode) : List CLine :=
  match m with
  | .viewA => [⟨"viewMode", .tok "View_A"⟩]
  | .viewB => [⟨"viewMode", .tok "View_B"⟩]
  | .viewCheckerboard => [⟨"viewMode", .tok "View_Checkerboard"⟩]
  | .viewSubtraction => [⟨"viewMode", .tok "View_Subtraction"⟩]
  | .viewHShutter => [⟨"viewMode", .tok "View_HShutter"⟩]
  | .viewVShutter => [⟨"viewMode", .tok "View_VShutter"⟩]
  | .viewAoverB => []
  | .viewBoverA => []

/-- The `CursorMode` token written by `RView::Write` (RView.cc:1514-1527). -/
def cursorTok : CursorMode → String
  | .crossHair => "CrossHair"
  | .cursorX => "CursorX"
  | .cursorV => "CursorV"
  | .cursorBar => "CursorBar"

/-- The color-mode token written by `RView::Write` (identical switches at
RView.cc:1555-1573, 1579-1597, 1603-1621). -/
def colorTok : ColorMode → String
  | .red => "ColorMode_Red"
  | .green => "ColorMode_Green"
  | .blue => "ColorMode_Blue"
  | .luminance => "ColorMode_Luminance"
  | .rainbow => "ColorMode_Rainbow"

/-- A boolean written by `operator<<`: `1` or `0`. -/
def boolV (b : Bool) : CVal := .int (if b then 1 else 0)

/-- The ordered `key = value` lines emitted by `RView::Write`
(RView.cc:1358-1625), comments and blank lines omitted; built without
VTK, so no `DisplayObject*` lines. -/
def writeConfig (s : ConfigState) : List CLine :=
  [⟨"configMode", .tok (configModeTok s.configMode)⟩,
   ⟨"screenX", .int s.screenX⟩,
   ⟨"screenY", .int s.screenY⟩,
   ⟨"origin_x", .dec s.originX⟩,
   ⟨"origin_y", .dec s.originY⟩,
   ⟨"origin_z", .dec s.originZ⟩,
   ⟨"resolution", .dec s.res⟩,
   ⟨"targetInterpolationMode", .tok (interpTok s.targetInterp)⟩,
   ⟨"sourceInterpolationMode", .tok (interpTok s.sourceInterp)⟩] ++
  viewModeLines s.viewMode ++
  [⟨"viewMix", .dec s.viewMix⟩,
   ⟨"DisplayTargetContour", boolV s.dispTargetContour⟩,
   ⟨"DisplaySourceContour", boolV s.dispSourceContour⟩,
   ⟨"DisplayCursor", boolV s.dispCursor⟩,
   ⟨"CursorMode", .tok (cursorTok s.cursorMode)⟩,
   ⟨"DisplayDeformationGrid", boolV s.dispDefGrid⟩,
   ⟨"DisplayDeformationPoints", boolV s.dispDefPoints⟩,
   ⟨"DisplayDeformationArrows", boolV s.dispDefArrows⟩,
   ⟨"DisplayLandmarks", boolV s.dispLandmarks⟩,
   ⟨"targetLookupTable_minDisplay", .int s.targetMin⟩,
   ⟨"targetLookupTable_maxDisplay", .int s.targetMax⟩,
   ⟨"targetLookupTable_mode", .tok (colorTok s.targetColorMode)⟩,
   ⟨"sourceLookupTable_minDisplay", .int s.sourceMin⟩,
   ⟨"sourceLookupTable_maxDisplay", .int s.sourceMax⟩,
   ⟨"sourceLookupTable_mode", .tok (colorTok s.sourceColorMode)⟩,
   ⟨"subtractionLookupTable_minDisplay", .int s.subMin⟩,
   ⟨"subtractionLookupTable_maxDisplay", .int s.subMax⟩,
   ⟨"subtractionLookupTable_mode", .tok (colorTok s.subColorMode)⟩]

/-- A concrete `RView` state exercising the round-trip defects: the
`_View_AB_XY_h` layout together with the `View_AoverB` view mode. -/
def c1State : ConfigState :=
  { configMode := .viewAB_XY_h
    screenX := 800
    screenY := 600
    originX := 0
    originY := 0
    originZ := 0
    res := 1
    targetInterp := .nn
    sourceInterp := .nn
    viewMode := .viewAoverB
    viewMix := 1/2
    dispTargetContour := true
    dispSourceContour := false
    dispCursor := true
    cursorMode := .crossHair
    dispDefGrid := false
    dispDefPoints := false
    dispDefArrows := false
    dispLandmarks := false
    targetMin := 0
    targetMax := 10000
    targetColorMode := .red
    sourceMin := 0
    sourceMax := 10000
    sourceColorMode := .green
    subMin := 0
    subMax := 10000
    subColorMode := .luminance }

/-- C1 (code defect): write-then-read does NOT reproduce `configMode` for
the four `View_AB_*_h` layouts — `RView::Read` maps the written token
`View_AB_XY_h` back to the `_View_AB_XY_v` enumerator
(RView.cc:1001-1002) — and does not reproduce `viewMode` for
`View_AoverB`/`View_BoverA`, for which `RView::Write` emits no `viewMode`
line (the switch's `default`), so any reader keeps its prior view mode. -/
theorem config_roundtrip_bug (s0 : ConfigState) :
    (readConfig s0 (writeConfig c1State)).map
        (fun s => (s.configMode, s.viewMode))
      = some (ConfigMode.viewAB_XY_v, s0.viewMode) ∧
    c1State.configMode = ConfigMode.viewAB_XY_h ∧
    c1State.viewMode = ViewMode.viewAoverB := by
  exact ⟨rfl, rfl, rfl⟩

/-- The value a line assigns to `_screenY`, if any: both the `screenX`
and the `screenY` handlers of `RView::Read` write `_screenY`
(RView.cc:1016-1024). -/
def screenVal (ln : CLine) : Option ℤ :=
  if hasKey ln "screenY" then some (atoiV ln.val)
  else if hasKey ln "screenX" then some (atoiV ln.val)
  else none

theorem readLine_screen (s : ConfigState) (ln : CLine) (s' : ConfigState)
    (h : readLine s ln = some s') :
    s'.screenX = s.screenX ∧ s'.screenY = (screenVal ln).getD s.screenY := by
  unfold readLine at h
  rcases hli : lineInterp ln with _ | ⟨ti, si⟩ <;> rw [hli] at h
  · cases h
  · injection h with h
    subst h
    refine ⟨rfl, ?_⟩
    unfold screenVal
    by_cases h1 : hasKey ln "screenY" = true <;>
      by_cases h2 : hasKey ln "screenX" = true <;>
      simp [h1, h2]

theorem readLine_interp (s : ConfigState) (ln : CLine) (s' : ConfigState)
    (h : readLine s ln = some s') :
    lineInterp ln = some (s'.targetInterp, s'.sourceInterp) := by
  unfold readLine at h
  rcases hli : lineInterp ln with _ | ⟨ti, si⟩ <;> rw [hli] at h
  · cases h
  · injection h with h
    subst h
    rfl

theorem getLast?_cons_getD {α : Type} (v d : α) (l : List α) :
    ((v :: l).getLast?).getD d = (l.getLast?).getD v := by
  cases l with
  | nil => rfl
  | cons y ys =>
    rw [List.getLast?_cons_cons]
    rcases h : (y :: ys).getLast? with _ | z
    · exact absurd (List.getLast?_eq_none_iff.mp h) (List.cons_ne_nil y ys)
    · rfl

theorem foldl_getD_last (l : List CLine) (d : ℤ) :
    l.foldl (fun acc ln => (screenVal ln).getD acc) d
      = ((l.filterMap screenVal).getLast?).getD d := by
  induction l generalizing d with
  | nil => rfl
  | cons x xs ih =>
    rw [List.foldl_cons, ih]
    rcases hx : screenVal x with _ | v
    · simp [List.filterMap_cons, hx]
    · simp only [List.filterMap_cons, hx, Option.getD_some]
      exact (getLast?_cons_getD v d (xs.filterMap screenVal)).symm

/-- C9: `RView::Read` never writes `_screenX`: for every line list the
read accepts, the stored screen width is unchanged, and the stored screen
height equals the value of the last line whose key matches `screenX` or
`screenY` (the `screenX` handler assigns `_screenY`, RView.cc:1017), or
the prior height if there is no such line. -/
theorem screen_read_effect (s0 : ConfigState) (lines : List CLine)
    (s' : ConfigState) (h : readConfig s0 lines = some s') :
    s'.screenX = s0.screenX ∧
    s'.screenY = ((lines.filterMap screenVal).getLast?).getD s0.screenY := by
  suffices H : s'.screenX = s0.screenX ∧
      s'.screenY
        = lines.foldl (fun acc ln => (screenVal ln).getD acc) s0.screenY by
    exact ⟨H.1, by rw [H.2, foldl_getD_last]⟩
  induction lines generalizing s0 with
  | nil =>
    unfold readConfig at h
    injection h with h
    subst h
    exact ⟨rfl, rfl⟩
  | cons x xs ih =>
    unfold readConfig at h
    rcases hx : readLine s0 x with _ | s1 <;> rw [hx] at h
    · cases h
    · obtain ⟨h1, h2⟩ := ih s1 h
      obtain ⟨g1, g2⟩ := readLine_screen s0 x s1 hx
      rw [List.foldl_cons]
      exact ⟨by rw [h1, g1], by rw [h2, g2]⟩

/-- A file with a `screenX` line followed by a `screenY` line. -/
def c9Lines : List CLine := [⟨"screenX", .int 640⟩, ⟨"screenY", .int 480⟩]

/-- Witness for `screen_read_effect`: reading `screenX = 640` then
`screenY = 480` into a state with width 800 leaves the width at 800 and
sets the height to 480. -/
theorem screen_read_effect_witness :
    ({ c1State with screenY := 480 } : ConfigState).screenX
        = c1State.screenX ∧
    ({ c1State with screenY := 480 } : ConfigState).screenY
        = ((c9Lines.filterMap screenVal).getLast?).getD c1State.screenY := by
  exact screen_read_effect c1State c9Lines { c1State with screenY := 480 }
    (by rfl)

/-- A `targetInterpolationMode = Linear` line followed by a
`sourceInterpolationMode = Linear` line. -/
def c10Lines : List CLine :=
  [⟨"targetInterpolationMode", .tok "mirtk::Interpolation_Linear"⟩,
   ⟨"sourceInterpolationMode", .tok "mirtk::Interpolation_Linear"⟩]

/-- C10 counterexample: the claim predicts that whenever any line follows
the `targetInterpolationMode` line both interpolators end up
nearest-neighbor — but after reading `targetInterpolationMode = Linear`
followed by `sourceInterpolationMode = Linear`, the source interpolator
ends up Linear (the target, whose line is not last, is NN). -/
theorem interp_rebuild_counterexample :
    (readConfig c1State c10Lines).map
        (fun s => (s.targetInterp, s.sourceInterp))
      = some (InterpMode.nn, InterpMode.linear) ∧
    InterpMode.linear ≠ InterpMode.nn := by
  exact ⟨rfl, by decide⟩

theorem readConfig_last_interp (lines : List CLine) :
    ∀ (s0 s' : ConfigState) (hne : lines ≠ []),
      readConfig s0 lines = some s' →
      lineInterp (lines.getLast hne) = some (s'.targetInterp, s'.sourceInterp) := by
  induction lines with
  | nil =>
    intro s0 s' hne h
    exact absurd rfl hne
  | cons x xs ih =>
    intro s0 s' hne h
    unfold readConfig at h
    rcases hx : readLine s0 x with _ | s1 <;> rw [hx] at h
    · cases h
    · cases xs with
      | nil =>
        unfold readConfig at h
        injection h with h
        subst h
        exact readLine_interp s0 x _ hx
      | cons y ys =>
        exact ih s1 s' (List.cons_ne_nil y ys) h

/-- C10 (amended): `RView::Read` deletes and recreates both interpolators
once per parsed line, defaulting the mode to nearest-neighbor each
iteration; consequently the final modes are those determined by the LAST
processed line alone: a `targetInterpolationMode` line sets BOTH target
and source to its token's mode (the local `interpolation` still holds the
parsed value when the source interpolator is created, RView.cc:1073 and
1100), a `sourceInterpolationMode` line sets the target to NN and the
source to its token's mode, and any other line sets both to NN. -/
theorem interp_last_line (s0 : ConfigState) (lines : List CLine)
    (s' : ConfigState) (hne : lines ≠ [])
    (h : readConfig s0 lines = some s') :
    lineInterp (lines.getLast hne) = some (s'.targetInterp, s'.sourceInterp) ∧
    (∀ (v : CVal) (m : InterpMode), parseInterp v = some m →
      lineInterp ⟨"targetInterpolationMode", v⟩ = some (m, m) ∧
      lineInterp ⟨"sourceInterpolationMode", v⟩ = some (InterpMode.nn, m)) ∧
    (∀ ln : CLine, hasKey ln "targetInterpolationMode" = false →
      hasKey ln "sourceInterpolationMode" = false →
      lineInterp ln = some (InterpMode.nn, InterpMode.nn)) := by
  refine ⟨readConfig_last_interp lines s0 s' hne h, fun v m hv => ⟨?_, ?_⟩,
    fun ln h1 h2 => ?_⟩
  · unfold lineInterp
    simp [show hasKey ⟨"targetInterpolationMode", v⟩ "targetInterpolationMode"
            = true from rfl,
          show hasKey ⟨"targetInterpolationMode", v⟩ "sourceInterpolationMode"
            = false from rfl, hv]
  · unfold lineInterp
    simp [show hasKey ⟨"sourceInterpolationMode", v⟩ "targetInterpolationMode"
            = false from rfl,
          show hasKey ⟨"sourceInterpolationMode", v⟩ "sourceInterpolationMode"
            = true from rfl, hv]
  · unfold lineInterp
    simp [h1, h2]

/-- Witness for `interp_last_line` on the two-line file `c10Lines`. -/
theorem interp_last_line_witness :
    lineInterp (c10Lines.getLast (by decide))
      = some ((InterpMode.nn, InterpMode.linear).1,
              (InterpMode.nn, InterpMode.linear).2) := by
  exact (interp_last_line c1State c10Lines
    { c1State with targetInterp := .nn, sourceInterp := .linear }
    (by decide) (by rfl)).1

end RViewModel
